import Mathlib

/-!
Shallow embedding of `metaseq/cli/interactive_cli.py` from the
Molecular_Generation_with_GDB13 repository: the rank-0 coordinator loop of
`worker_main` (batch schedule, request object, output file) and the
post-processing helper `make_caninical_smiles`, together with the
non-coordinator worker loop.  External collaborators (the SELFIES decoder,
RDKit, `generator.generate`, `torch.distributed`) enter the embedding as
parameters; Python exceptions are modelled with `Except`, `None` with
`Option`.
-/

namespace InteractiveCli

/-- `cfg.generation.mol_repr`: `"smiles"` selects the pass-through branch of
the round loop (line 146), anything else the SELFIES
validate-and-canonicalize branch. -/
inductive MolRepr where
  | smiles : MolRepr
  | selfies : MolRepr
deriving DecidableEq, Repr

/-- The fields of `cfg.generation` read by `worker_main`. -/
structure GenerationConfig where
  temperature : Rat
  sampling_topp : Rat
  logprobs : Nat
  beam : Nat
  generation_len : Nat
  output_file_path : String
  mol_repr : MolRepr
deriving DecidableEq, Repr

/-- The field of `cfg.dataset` read by `worker_main`. -/
structure DatasetConfig where
  batch_size : Nat
deriving DecidableEq, Repr

/-- The field of `cfg.common` read by `worker_main`. -/
structure CommonConfig where
  seed : Int
deriving DecidableEq, Repr

/-- The slice of the resolved `MetaseqConfig` that `worker_main` consumes. -/
structure MetaseqConfig where
  dataset : DatasetConfig
  common : CommonConfig
  generation : GenerationConfig
deriving DecidableEq, Repr

/-- The `request_object` dict built at lines 125-138.  A prompt is a token
sequence; the dict stores `batch_size` empty prompts. -/
structure RequestObject where
  inputs : List (List Nat)
  max_tokens : Option Nat
  min_tokens : List Nat
  temperature : Rat
  top_p : Rat
  logprobs : Nat
  n : Nat
  best_of : Option Nat
  echo : Bool
  stop : Option String
  seed : Int
  use_cuda : Bool
deriving DecidableEq, Repr

/-- Lines 123-138: `prompt = [[]]*batch_size` and the literal dict handed to
`generator.generate`. -/
def buildRequest (cfg : MetaseqConfig) : RequestObject where
  inputs := List.replicate cfg.dataset.batch_size []
  max_tokens := none
  min_tokens := List.replicate cfg.dataset.batch_size 1
  temperature := cfg.generation.temperature
  top_p := cfg.generation.sampling_topp
  logprobs := cfg.generation.logprobs
  n := cfg.generation.beam
  best_of := none
  echo := false
  stop := none
  seed := cfg.common.seed
  use_cuda := true

/-- The request used at round `k`: the dict is built once, before the loop,
and the same object is passed to `generator.generate` at every round
(line 143), so the request of round `k` does not depend on `k`. -/
def requestForRound (cfg : MetaseqConfig) (_k : Nat) : RequestObject :=
  buildRequest cfg

/-- `math.ceil(cfg.generation.generation_len / batch_size)` at line 142, the
number of loop iterations; Python's float division is modelled by exact
arithmetic (`(a + b - 1) / b` is the ceiling of `a / b` for `b > 0`). -/
def numRounds (generation_len batch_size : Nat) : Nat :=
  (generation_len + batch_size - 1) / batch_size

/-- One candidate dict of a generation slot; `worker_main` reads only its
`"text"` entry. -/
structure Candidate where
  text : String
deriving DecidableEq, Repr

/-- Line 144, `list(map(lambda x: x[0]["text"], generations))`: the text of
candidate 0 of every slot, in slot order.  Python raises `IndexError` on an
empty slot, modelled as `none`. -/
def extractFirstTexts (generations : List (List Candidate)) : Option (List String) :=
  generations.mapM (fun x => x.head?.map Candidate.text)

/-- `make_caninical_smiles` (lines 80-89).  `sf.decoder` runs outside the
`try`, so an exception it raises propagates (`Except.error`).  The RDKit
calls sit inside `try ... except: pass`, so when they raise,
`canon_smiles` keeps its initial value `None`.  `Chem.MolFromSmiles`
returns `None` on an unparsable SMILES and `Chem.MolToSmiles` raises on
such a `None` (or other bad input), which is where the `except` fires. -/
def make_caninical_smiles (Mol : Type) (decoder : String → Except String String)
    (molFromSmiles : String → Option Mol)
    (molToSmiles : Option Mol → Except String String)
    (selfies : String) : Except String (Option String) :=
  match decoder selfies with
  | Except.error e => Except.error e
  | Except.ok smiles =>
      match molToSmiles (molFromSmiles smiles) with
      | Except.ok canon => Except.ok (some canon)
      | Except.error _ => Except.ok none

/-- Line 152, `parmap.map(make_caninical_smiles, smiles_batch,
pm_processes=6)`: an order-preserving map over the batch; an exception
raised inside any worker is re-raised by `parmap.map` itself. -/
def parmapMap (Mol : Type) (decoder : String → Except String String)
    (molFromSmiles : String → Option Mol)
    (molToSmiles : Option Mol → Except String String)
    (batch : List String) : Except String (List (Option String)) :=
  batch.mapM (make_caninical_smiles Mol decoder molFromSmiles molToSmiles)

/-- `"\n".join(batch) + "\n"`, the string handed to `write_func` in the
pass-through branch (line 148). -/
def writeChunk (batch : List String) : String :=
  String.intercalate "\n" batch ++ "\n"

/-- Line 155, `"\n".join(canon_smiles_batch) + "\n"` where the list may
contain `None`: Python's `str.join` raises `TypeError` on the first
non-string item, so the join succeeds only when every item is a string. -/
def joinCanon (canon : List (Option String)) : Except String String :=
  match canon.mapM id with
  | none => Except.error "TypeError"
  | some ls => Except.ok (writeChunk ls)

/-- Observable actions of `worker_main`, in program order. -/
inductive Event where
  | loadModel : Event
  | broadcastSend : Event
  | broadcastRecv : Event
  | existsCheck : Bool → Event
  | exitWith : Nat → Event
  | openOut : Event
  | printRequest : Event
  | generateCall : Nat → Event
  | appendChunk : Nat → String → Event
  | printSaved : Event
  | logRoundSkipped : Nat → Event
deriving DecidableEq, Repr

/-- The event that the observability requirement of the spec would demand
when a round's validation stage is dropped.  No statement of `worker_main`
can emit it: the body of the `except` at lines 156-157 is `pass`. -/
def Event.isSkipLog : Event → Bool
  | Event.logRoundSkipped _ => true
  | _ => false

def Event.isGenerateCall : Event → Bool
  | Event.generateCall _ => true
  | _ => false

def Event.isAppendChunk : Event → Bool
  | Event.appendChunk _ _ => true
  | _ => false

def Event.isBroadcastSend : Event → Bool
  | Event.broadcastSend => true
  | _ => false

def Event.isExistsCheck : Event → Bool
  | Event.existsCheck _ => true
  | _ => false

def Event.isLoadModel : Event → Bool
  | Event.loadModel => true
  | _ => false

/-- One pass-through round, lines 143-148: call the generator, then append
`"\n".join(smiles_batch) + "\n"`; `texts` is the round's `smiles_batch`. -/
def smilesRoundEvents (texts : List String) (i : Nat) : List Event :=
  [Event.generateCall i, Event.appendChunk i (writeChunk texts)]

/-- One SELFIES round, lines 143-157.  `canonResult` is the outcome of the
`parmap.map` call (`Except.error` when the parallel stage raises, which
covers both a propagated per-item exception and a failure of the pool
itself).  The `try: ... except: pass` wraps both `parmap.map` and the
write, so a raise from either one makes the round write nothing. -/
def selfiesRoundEvents (canonResult : Except String (List (Option String)))
    (i : Nat) : List Event :=
  Event.generateCall i ::
    match canonResult with
    | Except.error _ => []
    | Except.ok canon =>
        match joinCanon canon with
        | Except.error _ => []
        | Except.ok chunk => [Event.appendChunk i chunk]

/-- Round `i` of the loop at lines 142-157, by representation mode. -/
def roundEvents (mode : MolRepr) (texts : Nat → List String)
    (canonResult : Nat → Except String (List (Option String))) (i : Nat) :
    List Event :=
  match mode with
  | MolRepr.smiles => smilesRoundEvents (texts i) i
  | MolRepr.selfies => selfiesRoundEvents (canonResult i) i

/-- The rank-0 coordinator path of `worker_main` (lines 92-159) as its
sequence of observable events.  `distributed` is
`torch.distributed.is_initialized()`, `fileExists` the value of
`os.path.exists(file_path)` at line 116, `texts i` round `i`'s
`smiles_batch`, and `canonResult i` round `i`'s `parmap.map` outcome
(consulted only in SELFIES mode).  Program order: construct the generator
and load the model (lines 98-99), take part in the single pre-loop
broadcast (lines 106-109), check the output path (line 116), then either
`sys.exit(1)` or open the file, print the request and run the rounds. -/
def coordinatorTrace (cfg : MetaseqConfig) (distributed fileExists : Bool)
    (texts : Nat → List String)
    (canonResult : Nat → Except String (List (Option String))) : List Event :=
  Event.loadModel ::
    ((if distributed then [Event.broadcastSend] else []) ++
      (Event.existsCheck fileExists ::
        (if fileExists then [Event.exitWith 1]
         else Event.openOut :: Event.printRequest ::
           ((List.range
                (numRounds cfg.generation.generation_len cfg.dataset.batch_size)).flatMap
              (roundEvents cfg.generation.mol_repr texts canonResult) ++
            [Event.printSaved]))))

/-- The non-coordinator path of `worker_main` (lines 92-109 and 161-167),
after having observed `received` in-loop broadcasts: load the model, take
part in the pre-loop broadcast, then loop `receive; generate` forever,
blocking on each receive until rank 0 publishes. -/
def workerTrace (received : Nat) : List Event :=
  Event.loadModel :: Event.broadcastRecv ::
    (List.range received).flatMap
      (fun i => [Event.broadcastRecv, Event.generateCall i])

/-- The final content of the output file: `init` (what the path held before
the run) followed by every chunk passed to `write_func`, in trace order. -/
def finalFile (tr : List Event) (init : String) : String :=
  tr.foldl (fun f e =>
    match e with
    | Event.appendChunk _ chunk => f ++ chunk
    | _ => f) init

/-- Number of newline-terminated lines in a file content string. -/
def lineCount (s : String) : Nat :=
  s.data.count '\n'

/-- Concrete SELFIES decoder used to evaluate the pipeline on closed inputs:
it rejects the string `"[Bad]"` and passes everything else through. -/
def demoDecoder : String → Except String String :=
  fun s => if s = "[Bad]" then Except.error "DecodeError" else Except.ok s

/-- Concrete `Chem.MolFromSmiles` stand-in: only `"CC"` parses. -/
def demoMolFromSmiles : String → Option Unit :=
  fun s => if s = "CC" then some () else none

/-- Concrete `Chem.MolToSmiles` stand-in: raises on `None` input, as RDKit
does. -/
def demoMolToSmiles : Option Unit → Except String String :=
  fun m =>
    match m with
    | some _ => Except.ok "CC"
    | none => Except.error "ArgumentError"

/-- A small concrete pass-through configuration: batch size 4, target 10
(the spec's end-to-end scenario). -/
def demoSmilesCfg : MetaseqConfig where
  dataset := { batch_size := 4 }
  common := { seed := 3 }
  generation :=
    { temperature := 1
      sampling_topp := 4 / 5
      logprobs := 0
      beam := 1
      generation_len := 10
      output_file_path := "out.csv"
      mol_repr := MolRepr.smiles }

/-- A generator oracle that answers `"A","B","C","D"` on every round. -/
def demoTexts : Nat → List String := fun _ => ["A", "B", "C", "D"]

/-- A canonicalization oracle (unused in pass-through mode). -/
def demoCanon : Nat → Except String (List (Option String)) :=
  fun _ => Except.ok []

/-- Two pass-through rounds with batch size 1, for a distributed run. -/
def c3Cfg : MetaseqConfig where
  dataset := { batch_size := 1 }
  common := { seed := 3 }
  generation :=
    { temperature := 1
      sampling_topp := 4 / 5
      logprobs := 0
      beam := 1
      generation_len := 2
      output_file_path := "out.csv"
      mol_repr := MolRepr.smiles }

/-- A generator oracle answering a single-slot batch `["A"]` every round. -/
def c3Texts : Nat → List String := fun _ => ["A"]

/-- Two SELFIES rounds with batch size 1. -/
def c5Cfg : MetaseqConfig where
  dataset := { batch_size := 1 }
  common := { seed := 3 }
  generation :=
    { temperature := 1
      sampling_topp := 4 / 5
      logprobs := 0
      beam := 1
      generation_len := 2
      output_file_path := "out.csv"
      mol_repr := MolRepr.selfies }

/-- Round 0's parallel validation stage fails wholesale; round 1
canonicalizes its single item to `"CC"`. -/
def c5Canon : Nat → Except String (List (Option String)) :=
  fun i => if i = 0 then Except.error "PoolError" else Except.ok [some "CC"]

/-- The same run with round 0's validation succeeding as well. -/
def c5CanonOk : Nat → Except String (List (Option String)) :=
  fun _ => Except.ok [some "CC"]

/- ### Helper lemmas -/

lemma intercalate_go_data (sep : String) :
    ∀ (as : List String) (acc : String),
      (String.intercalate.go acc sep as).data =
        acc.data ++ as.flatMap (fun s => sep.data ++ s.data)
  | [], acc => by simp [String.intercalate.go]
  | b :: bs, acc => by
      rw [String.intercalate.go, intercalate_go_data sep bs (acc ++ sep ++ b)]
      simp [List.flatMap_cons]

lemma flatMap_newline_shift (as : List String) :
    as.flatMap (fun s => '\n' :: s.data) ++ [ '\n' ] =
      '\n' :: as.flatMap (fun s => s.data ++ [ '\n' ]) := by
  induction as with
  | nil => rfl
  | cons b bs ih => simp [List.flatMap_cons, ih]

lemma writeChunk_data (a : String) (as : List String) :
    (writeChunk (a :: as)).data =
      (a :: as).flatMap (fun s => s.data ++ [ '\n' ]) := by
  show (String.intercalate "\n" (a :: as) ++ "\n").data = _
  rw [String.intercalate]
  rw [String.data_append, intercalate_go_data "\n" as a]
  have hnl : ("\n" : String).data = [ '\n' ] := rfl
  rw [hnl]
  simp only [List.singleton_append]
  rw [List.append_assoc, flatMap_newline_shift as]
  simp [List.flatMap_cons]

lemma count_nl_flatMap (batch : List String)
    (h : ∀ s ∈ batch, '\n' ∉ s.data) :
    (batch.flatMap (fun s => s.data ++ [ '\n' ])).count '\n' = batch.length := by
  induction batch with
  | nil => rfl
  | cons b bs ih =>
      have hb : '\n' ∉ b.data := h b (List.mem_cons_self b bs)
      have ihb := ih (fun s hs => h s (List.mem_cons_of_mem b hs))
      simp [List.flatMap_cons, List.count_append, ihb,
        List.count_eq_zero.mpr hb]

lemma splitOn_nl_flatMap (batch : List String)
    (h : ∀ s ∈ batch, '\n' ∉ s.data) :
    (batch.flatMap (fun s => s.data ++ [ '\n' ])).splitOn '\n' =
      batch.map String.data ++ [[]] := by
  induction batch with
  | nil => rfl
  | cons b bs ih =>
      have hb : '\n' ∉ b.data := h b (List.mem_cons_self b bs)
      have ihb := ih (fun s hs => h s (List.mem_cons_of_mem b hs))
      have hpred : ∀ x ∈ b.data, ¬((x == '\n') = true) := by
        intro x hx hxe
        rw [show x = '\n' from by simpa using hxe] at hx
        exact hb hx
      have hfirst := List.splitOnP_first (fun c => c == '\n') b.data hpred '\n'
        (by simp) (bs.flatMap (fun s => s.data ++ [ '\n' ]))
      simp only [List.splitOn] at ihb ⊢
      rw [List.flatMap_cons, List.append_assoc, List.singleton_append, hfirst,
        ihb]
      simp

lemma lineCount_append (s t : String) :
    lineCount (s ++ t) = lineCount s + lineCount t := by
  simp [lineCount, List.count_append]

lemma lineCount_writeChunk (batch : List String) (hne : batch ≠ [])
    (h : ∀ s ∈ batch, '\n' ∉ s.data) :
    lineCount (writeChunk batch) = batch.length := by
  cases batch with
  | nil => exact absurd rfl hne
  | cons a as =>
      rw [lineCount, writeChunk_data a as]
      exact count_nl_flatMap (a :: as) h

lemma finalFile_append (tr1 tr2 : List Event) (init : String) :
    finalFile (tr1 ++ tr2) init = finalFile tr2 (finalFile tr1 init) := by
  simp [finalFile, List.foldl_append]

lemma finalFile_no_append : ∀ (tr : List Event) (init : String),
    (∀ e ∈ tr, e.isAppendChunk = false) → finalFile tr init = init
  | [], _, _ => rfl
  | e :: es, init, h => by
      have he := h e (List.mem_cons_self e es)
      have htail : ∀ x ∈ es, x.isAppendChunk = false :=
        fun x hx => h x (List.mem_cons_of_mem e hx)
      cases e
      case appendChunk i c => exact absurd he (by simp [Event.isAppendChunk])
      all_goals exact finalFile_no_append es init htail

lemma finalFile_smiles_flatMap (texts : Nat → List String) :
    ∀ (l : List Nat) (init : String),
      finalFile (l.flatMap (fun i => smilesRoundEvents (texts i) i)) init =
        l.foldl (fun s i => s ++ writeChunk (texts i)) init
  | [], _ => rfl
  | i :: is, init => by
      rw [List.flatMap_cons, finalFile_append]
      exact finalFile_smiles_flatMap texts is _

lemma lineCount_foldl (texts : Nat → List String) (bs : Nat)
    (hc : ∀ i, lineCount (writeChunk (texts i)) = bs) :
    ∀ (l : List Nat) (init : String),
      lineCount (l.foldl (fun s i => s ++ writeChunk (texts i)) init) =
        lineCount init + l.length * bs
  | [], init => by simp
  | i :: is, init => by
      have hrec := lineCount_foldl texts bs hc is (init ++ writeChunk (texts i))
      simp only [List.foldl_cons] at hrec ⊢
      rw [hrec, lineCount_append, hc i]
      simp [List.length_cons]
      ring

lemma countGenerate_smiles_flatMap (texts : Nat → List String) :
    ∀ (l : List Nat),
      ((l.flatMap (fun i => smilesRoundEvents (texts i) i)).filter
          Event.isGenerateCall).length = l.length
  | [] => rfl
  | i :: is => by
      have hone : (List.filter Event.isGenerateCall
          (smilesRoundEvents (texts i) i)).length = 1 := rfl
      simp only [List.flatMap_cons, List.filter_append, List.length_append,
        hone, countGenerate_smiles_flatMap texts is, List.length_cons]
      omega

lemma numRounds_bounds (gl bs : Nat) (hg : 0 < gl) (hb : 0 < bs) :
    gl ≤ numRounds gl bs * bs ∧ numRounds gl bs * bs < gl + bs := by
  have h1 := Nat.div_add_mod (gl + bs - 1) bs
  have h2 : (gl + bs - 1) % bs < bs := Nat.mod_lt _ hb
  unfold numRounds
  rw [Nat.mul_comm]
  generalize hr0 : (gl + bs - 1) % bs = r at h1 h2
  generalize hq : (gl + bs - 1) / bs = q at h1 ⊢
  generalize hm : bs * q = m at h1 ⊢
  omega

lemma numRounds_eq_ceil (gl bs : Nat) (hg : 0 < gl) (hb : 0 < bs) :
    numRounds gl bs = ⌈(gl : ℚ) / (bs : ℚ)⌉₊ := by
  obtain ⟨hlow, hhigh⟩ := numRounds_bounds gl bs hg hb
  have hd0 : numRounds gl bs ≠ 0 := by
    intro h0
    rw [h0, Nat.zero_mul] at hlow
    omega
  have hbq : (0 : ℚ) < (bs : ℚ) := by exact_mod_cast hb
  symm
  rw [Nat.ceil_eq_iff hd0]
  constructor
  · rw [lt_div_iff₀ hbq]
    have hsub : (numRounds gl bs - 1) * bs = numRounds gl bs * bs - bs := by
      rw [Nat.sub_mul, Nat.one_mul]
    have hlt : (numRounds gl bs - 1) * bs < gl := by
      rw [hsub]
      generalize numRounds gl bs * bs = m at hlow hhigh ⊢
      omega
    exact_mod_cast hlt
  · rw [div_le_iff₀ hbq]
    exact_mod_cast hlow

/-- The coordinator trace in pass-through mode with a fresh output path. -/
lemma coordinatorTrace_smiles (cfg : MetaseqConfig) (distributed : Bool)
    (texts : Nat → List String)
    (canonResult : Nat → Except String (List (Option String)))
    (hmode : cfg.generation.mol_repr = MolRepr.smiles) :
    coordinatorTrace cfg distributed false texts canonResult =
      Event.loadModel ::
        ((if distributed then [Event.broadcastSend] else []) ++
          (Event.existsCheck false :: Event.openOut :: Event.printRequest ::
            ((List.range (numRounds cfg.generation.generation_len
                  cfg.dataset.batch_size)).flatMap
                (fun i => smilesRoundEvents (texts i) i) ++
              [Event.printSaved]))) := by
  simp only [coordinatorTrace, hmode]
  rfl

lemma filterGen_coordinator_smiles (cfg : MetaseqConfig) (distributed : Bool)
    (texts : Nat → List String)
    (canonResult : Nat → Except String (List (Option String)))
    (hmode : cfg.generation.mol_repr = MolRepr.smiles) :
    ((coordinatorTrace cfg distributed false texts canonResult).filter
        Event.isGenerateCall).length =
      numRounds cfg.generation.generation_len cfg.dataset.batch_size := by
  rw [coordinatorTrace_smiles cfg distributed texts canonResult hmode]
  have hstep : ∀ (B : List Event),
      List.filter Event.isGenerateCall
          (Event.existsCheck false :: Event.openOut :: Event.printRequest ::
            (B ++ [Event.printSaved])) =
        List.filter Event.isGenerateCall B := by
    intro B
    show List.filter Event.isGenerateCall (B ++ [Event.printSaved]) = _
    rw [List.filter_append]
    simp [Event.isGenerateCall]
  have h2 := countGenerate_smiles_flatMap texts
    (List.range (numRounds cfg.generation.generation_len cfg.dataset.batch_size))
  cases distributed
  · exact (congrArg List.length (hstep _)).trans
      (h2.trans (List.length_range _))
  · exact (congrArg List.length (hstep _)).trans
      (h2.trans (List.length_range _))

lemma finalFile_coordinator_smiles (cfg : MetaseqConfig) (distributed : Bool)
    (texts : Nat → List String)
    (canonResult : Nat → Except String (List (Option String)))
    (hmode : cfg.generation.mol_repr = MolRepr.smiles) (init : String) :
    finalFile (coordinatorTrace cfg distributed false texts canonResult) init =
      (List.range (numRounds cfg.generation.generation_len
          cfg.dataset.batch_size)).foldl
        (fun s i => s ++ writeChunk (texts i)) init := by
  rw [coordinatorTrace_smiles cfg distributed texts canonResult hmode]
  have hstep : ∀ (B : List Event) (s : String),
      finalFile (Event.existsCheck false :: Event.openOut :: Event.printRequest ::
        (B ++ [Event.printSaved])) s = finalFile B s := by
    intro B s
    show finalFile (B ++ [Event.printSaved]) s = finalFile B s
    rw [finalFile_append]
    rfl
  cases distributed
  · exact (hstep _ init).trans (finalFile_smiles_flatMap texts _ init)
  · exact (hstep _ init).trans (finalFile_smiles_flatMap texts _ init)

/-- Claim C1: with `generation_len > 0` and `batch_size > 0`, the loop runs
exactly `ceil(generation_len / batch_size)` rounds, every round's request
carries exactly `batch_size` prompts, every round appends `batch_size`
lines, and on normal completion the file holds `generation_len` lines
rounded up to a multiple of `batch_size` (the last round is a full batch,
over-generation is not trimmed). -/
theorem C1_schedule (cfg : MetaseqConfig) (distributed : Bool)
    (texts : Nat → List String)
    (canonResult : Nat → Except String (List (Option String)))
    (gl bs : Nat)
    (hgl : cfg.generation.generation_len = gl)
    (hbs : cfg.dataset.batch_size = bs)
    (hmode : cfg.generation.mol_repr = MolRepr.smiles)
    (hg : 0 < gl) (hb : 0 < bs)
    (hlen : ∀ i, (texts i).length = bs)
    (hnl : ∀ i, ∀ s ∈ texts i, '\n' ∉ s.data) :
    numRounds gl bs = ⌈(gl : ℚ) / (bs : ℚ)⌉₊ ∧
    ((coordinatorTrace cfg distributed false texts canonResult).filter
        Event.isGenerateCall).length = numRounds gl bs ∧
    (∀ k, (requestForRound cfg k).inputs.length = bs) ∧
    (∀ i, lineCount (writeChunk (texts i)) = bs) ∧
    lineCount
        (finalFile (coordinatorTrace cfg distributed false texts canonResult)
          "") =
      numRounds gl bs * bs ∧
    bs ∣ numRounds gl bs * bs ∧
    gl ≤ numRounds gl bs * bs ∧
    numRounds gl bs * bs < gl + bs := by
  have hchunk : ∀ i, lineCount (writeChunk (texts i)) = bs := by
    intro i
    have hne : texts i ≠ [] := by
      have : 0 < (texts i).length := by rw [hlen i]; exact hb
      exact List.length_pos.mp this
    rw [lineCount_writeChunk (texts i) hne (hnl i)]
    exact hlen i
  refine ⟨numRounds_eq_ceil gl bs hg hb, ?_, ?_, hchunk, ?_, ?_, ?_, ?_⟩
  · rw [filterGen_coordinator_smiles cfg distributed texts canonResult hmode,
      hgl, hbs]
  · intro k
    simp [requestForRound, buildRequest, hbs]
  · rw [finalFile_coordinator_smiles cfg distributed texts canonResult hmode,
      lineCount_foldl texts bs hchunk, hgl, hbs]
    simp [lineCount, List.length_range]
  · exact ⟨numRounds gl bs, Nat.mul_comm _ _⟩
  · exact (numRounds_bounds gl bs hg hb).1
  · exact (numRounds_bounds gl bs hg hb).2

/-- Witness for C1, the spec's end-to-end scenario: batch size 4, target 10,
pass-through mode: 3 rounds, 12 output lines. -/
theorem C1_schedule_witness :
    numRounds 10 4 = ⌈(10 : ℚ) / (4 : ℚ)⌉₊ ∧
    ((coordinatorTrace demoSmilesCfg false false demoTexts demoCanon).filter
        Event.isGenerateCall).length = numRounds 10 4 ∧
    (∀ k, (requestForRound demoSmilesCfg k).inputs.length = 4) ∧
    (∀ i, lineCount (writeChunk (demoTexts i)) = 4) ∧
    lineCount
        (finalFile (coordinatorTrace demoSmilesCfg false false demoTexts demoCanon)
          "") = numRounds 10 4 * 4 ∧
    4 ∣ numRounds 10 4 * 4 ∧
    10 ≤ numRounds 10 4 * 4 ∧
    numRounds 10 4 * 4 < 10 + 4 :=
  C1_schedule demoSmilesCfg false demoTexts demoCanon 10 4 rfl rfl rfl
    (by decide) (by decide) (fun _ => rfl)
    (fun _ => by
      show ∀ s ∈ ["A", "B", "C", "D"], '\n' ∉ s.data
      decide)

/-- Claim C8: for every round, the request has `batch_size` prompts, all of
them empty, `min_tokens` of the same length as the prompts, and the seed
field holds the configured seed, identically across all rounds. -/
theorem C8_request_invariant (cfg : MetaseqConfig) (k : Nat) :
    (requestForRound cfg k).inputs.length = cfg.dataset.batch_size ∧
    (requestForRound cfg k).inputs = List.replicate cfg.dataset.batch_size [] ∧
    (requestForRound cfg k).min_tokens.length =
      (requestForRound cfg k).inputs.length ∧
    (requestForRound cfg k).seed = cfg.common.seed ∧
    ∀ k2 : Nat, requestForRound cfg k = requestForRound cfg k2 := by
  refine ⟨?_, rfl, ?_, rfl, fun _ => rfl⟩ <;>
    simp [requestForRound, buildRequest]

/-- Claim C9: `make_caninical_smiles` never raises out of the guarded
canonicalization step — a failing canonicalization yields `None` — while an
exception of the SELFIES decoder, which runs outside the `try`, propagates
to the caller unchanged. -/
theorem C9_decoder_unguarded (Mol : Type) (decoder : String → Except String String)
    (molFromSmiles : String → Option Mol)
    (molToSmiles : Option Mol → Except String String) (s : String) :
    (∀ e, decoder s = Except.error e →
      make_caninical_smiles Mol decoder molFromSmiles molToSmiles s =
        Except.error e) ∧
    (∀ v, decoder s = Except.ok v →
      make_caninical_smiles Mol decoder molFromSmiles molToSmiles s =
        Except.ok (molToSmiles (molFromSmiles v)).toOption) := by
  constructor
  · intro e he
    simp [make_caninical_smiles, he]
  · intro v hv
    simp only [make_caninical_smiles, hv]
    cases molToSmiles (molFromSmiles v) <;> rfl

/-- Witness for C9 at concrete collaborators: a decoder error propagates, a
canonicalization failure becomes `Except.ok none`, a success becomes
`Except.ok (some canon)`. -/
theorem C9_decoder_unguarded_witness :
    make_caninical_smiles Unit demoDecoder demoMolFromSmiles demoMolToSmiles
        "[Bad]" = Except.error "DecodeError" ∧
    make_caninical_smiles Unit demoDecoder demoMolFromSmiles demoMolToSmiles
        "garbage" = Except.ok none ∧
    make_caninical_smiles Unit demoDecoder demoMolFromSmiles demoMolToSmiles
        "CC" = Except.ok (some "CC") := by
  refine ⟨?_, ?_, ?_⟩
  · exact (C9_decoder_unguarded Unit demoDecoder demoMolFromSmiles
      demoMolToSmiles "[Bad]").1 "DecodeError" (by simp [demoDecoder])
  · simpa [demoMolFromSmiles, demoMolToSmiles] using
      (C9_decoder_unguarded Unit demoDecoder demoMolFromSmiles
        demoMolToSmiles "garbage").2 "garbage" (by simp [demoDecoder])
  · simpa [demoMolFromSmiles, demoMolToSmiles] using
      (C9_decoder_unguarded Unit demoDecoder demoMolFromSmiles
        demoMolToSmiles "CC").2 "CC" (by simp [demoDecoder])

lemma extractFirstTexts_nil : extractFirstTexts [] = some [] := rfl

lemma extractFirstTexts_cons (g : List Candidate) (gens : List (List Candidate)) :
    extractFirstTexts (g :: gens) =
      (g.head?.map Candidate.text).bind
        (fun t => (extractFirstTexts gens).map (fun ts => t :: ts)) := by
  unfold extractFirstTexts
  rw [List.mapM_cons]
  cases g.head? with
  | none => rfl
  | some c =>
      cases gens.mapM (fun x => Option.map Candidate.text x.head?) with
      | none => rfl
      | some ts => rfl

/-- Claim C10: the extraction at line 144 takes exactly the candidate at
index 0 of every slot, in slot order; all further candidates of a slot (as
produced when `n`/`beam` exceeds 1) are discarded. -/
theorem C10_first_candidate_only (firsts : List Candidate)
    (rests : List (List Candidate)) (h : firsts.length = rests.length) :
    extractFirstTexts (List.zipWith List.cons firsts rests) =
      some (firsts.map Candidate.text) ∧
    (List.zipWith List.cons firsts rests).length = firsts.length := by
  constructor
  · induction firsts generalizing rests with
    | nil => simp [extractFirstTexts_nil]
    | cons c cs ih =>
        cases rests with
        | nil => simp at h
        | cons r rs =>
            have hlen : cs.length = rs.length := by
              simpa using h
            simp [extractFirstTexts_cons, ih rs hlen]
  · simp [List.length_zipWith, h]

lemma selfiesRoundEvents_error (e0 : String) (i : Nat) :
    selfiesRoundEvents (Except.error e0) i = [Event.generateCall i] := rfl

lemma selfiesRoundEvents_ok (canon : List (Option String)) (i : Nat) :
    selfiesRoundEvents (Except.ok canon) i =
      Event.generateCall i ::
        (match joinCanon canon with
         | Except.error _ => []
         | Except.ok chunk => [Event.appendChunk i chunk]) := rfl

lemma mem_roundEvents (mode : MolRepr) (texts : Nat → List String)
    (canonResult : Nat → Except String (List (Option String))) (i : Nat)
    (e : Event) (he : e ∈ roundEvents mode texts canonResult i) :
    e = Event.generateCall i ∨ ∃ c, e = Event.appendChunk i c := by
  cases mode with
  | smiles =>
      simp only [roundEvents, smilesRoundEvents, List.mem_cons,
        List.not_mem_nil, or_false] at he
      rcases he with h | h
      · exact Or.inl h
      · exact Or.inr ⟨writeChunk (texts i), h⟩
  | selfies =>
      simp only [roundEvents] at he
      rcases hc : canonResult i with err | canon <;> rw [hc] at he
      · rw [selfiesRoundEvents_error] at he
        simp only [List.mem_singleton] at he
        exact Or.inl he
      · rw [selfiesRoundEvents_ok] at he
        rcases List.mem_cons.mp he with h | h
        · exact Or.inl h
        · rcases hj : joinCanon canon with err2 | chunk <;> rw [hj] at h
          · simp at h
          · simp only [List.mem_singleton] at h
            exact Or.inr ⟨chunk, h⟩

lemma generateCall_mem_roundEvents (mode : MolRepr) (texts : Nat → List String)
    (canonResult : Nat → Except String (List (Option String))) (i : Nat) :
    Event.generateCall i ∈ roundEvents mode texts canonResult i := by
  cases mode <;> exact List.mem_cons_self _ _

lemma mem_coordinatorTrace_of_mem_rounds (cfg : MetaseqConfig)
    (distributed : Bool) (texts : Nat → List String)
    (canonResult : Nat → Except String (List (Option String))) (e : Event)
    (j : Nat)
    (hj : j < numRounds cfg.generation.generation_len cfg.dataset.batch_size)
    (he : e ∈ roundEvents cfg.generation.mol_repr texts canonResult j) :
    e ∈ coordinatorTrace cfg distributed false texts canonResult := by
  have hfm : e ∈ (List.range (numRounds cfg.generation.generation_len
      cfg.dataset.batch_size)).flatMap
        (roundEvents cfg.generation.mol_repr texts canonResult) :=
    List.mem_flatMap.mpr ⟨j, List.mem_range.mpr hj, he⟩
  exact List.mem_cons_of_mem _ (List.mem_append_right _
    (List.mem_cons_of_mem _ (List.mem_cons_of_mem _
      (List.mem_cons_of_mem _ (List.mem_append_left _ hfm)))))

lemma mem_coordinatorTrace (cfg : MetaseqConfig) (distributed fileExists : Bool)
    (texts : Nat → List String)
    (canonResult : Nat → Except String (List (Option String))) (e : Event)
    (he : e ∈ coordinatorTrace cfg distributed fileExists texts canonResult) :
    e = Event.loadModel ∨ e = Event.broadcastSend ∨
    e = Event.existsCheck fileExists ∨ e = Event.exitWith 1 ∨
    e = Event.openOut ∨ e = Event.printRequest ∨ e = Event.printSaved ∨
    ∃ j, e ∈ roundEvents cfg.generation.mol_repr texts canonResult j := by
  cases distributed <;> cases fileExists <;>
    simp [coordinatorTrace] at he <;> tauto

lemma filterSkipLog_coordinatorTrace (cfg : MetaseqConfig)
    (distributed fileExists : Bool) (texts : Nat → List String)
    (canonResult : Nat → Except String (List (Option String))) :
    (coordinatorTrace cfg distributed fileExists texts canonResult).filter
      Event.isSkipLog = [] := by
  apply List.filter_eq_nil_iff.mpr
  intro e he
  rcases mem_coordinatorTrace cfg distributed fileExists texts canonResult e he
    with h | h | h | h | h | h | h | ⟨j, hj⟩
  · simp [h, Event.isSkipLog]
  · simp [h, Event.isSkipLog]
  · simp [h, Event.isSkipLog]
  · simp [h, Event.isSkipLog]
  · simp [h, Event.isSkipLog]
  · simp [h, Event.isSkipLog]
  · simp [h, Event.isSkipLog]
  · rcases mem_roundEvents cfg.generation.mol_repr texts canonResult j e hj
      with h | ⟨c, h⟩ <;> simp [h, Event.isSkipLog]

lemma filter_rounds_flatMap_eq_nil (p : Event → Bool) (mode : MolRepr)
    (texts : Nat → List String)
    (canonResult : Nat → Except String (List (Option String)))
    (l : List Nat)
    (hgen : ∀ i, p (Event.generateCall i) = false)
    (happ : ∀ i c, p (Event.appendChunk i c) = false) :
    (l.flatMap (roundEvents mode texts canonResult)).filter p = [] := by
  apply List.filter_eq_nil_iff.mpr
  intro e he
  rcases List.mem_flatMap.mp he with ⟨i, _, hei⟩
  rcases mem_roundEvents mode texts canonResult i e hei with h | ⟨c, h⟩
  · simp [h, hgen i]
  · simp [h, happ i c]

/-- Decomposition of any coordinator trace around its unique existence
check: everything before it is the model load and the pre-loop broadcast,
and no write and no further check occur anywhere else. -/
lemma coordinatorTrace_decomp (cfg : MetaseqConfig)
    (distributed fileExists : Bool) (texts : Nat → List String)
    (canonResult : Nat → Except String (List (Option String))) :
    ∃ pre post,
      coordinatorTrace cfg distributed fileExists texts canonResult =
        pre ++ Event.existsCheck fileExists :: post ∧
      pre.filter Event.isExistsCheck = [] ∧
      pre.filter Event.isAppendChunk = [] ∧
      post.filter Event.isExistsCheck = [] := by
  refine ⟨Event.loadModel :: (if distributed then [Event.broadcastSend] else []),
    (if fileExists then [Event.exitWith 1]
     else Event.openOut :: Event.printRequest ::
       ((List.range (numRounds cfg.generation.generation_len
            cfg.dataset.batch_size)).flatMap
          (roundEvents cfg.generation.mol_repr texts canonResult) ++
        [Event.printSaved])), ?_, ?_, ?_, ?_⟩
  · cases distributed <;> cases fileExists <;> rfl
  · cases distributed <;> rfl
  · cases distributed <;> rfl
  · cases fileExists
    · show List.filter Event.isExistsCheck
        ((List.range (numRounds cfg.generation.generation_len
            cfg.dataset.batch_size)).flatMap
          (roundEvents cfg.generation.mol_repr texts canonResult) ++
          [Event.printSaved]) = []
      rw [List.filter_append,
        filter_rounds_flatMap_eq_nil Event.isExistsCheck
          cfg.generation.mol_repr texts canonResult _
          (fun _ => rfl) (fun _ _ => rfl)]
      rfl
    · rfl

/-- Claim C4: if the output path already exists the run exits with code 1
before the round loop — no generate call, no write, file left exactly as it
was — and in every run the existence check is performed exactly once,
before any write. -/
theorem C4_exists_guard (cfg : MetaseqConfig) (distributed fileExists : Bool)
    (texts : Nat → List String)
    (canonResult : Nat → Except String (List (Option String)))
    (init : String) :
    (fileExists = true →
      finalFile (coordinatorTrace cfg distributed fileExists texts canonResult)
          init = init ∧
      Event.exitWith 1 ∈
        coordinatorTrace cfg distributed fileExists texts canonResult ∧
      (coordinatorTrace cfg distributed fileExists texts canonResult).filter
          Event.isGenerateCall = [] ∧
      (coordinatorTrace cfg distributed fileExists texts canonResult).filter
          Event.isAppendChunk = []) ∧
    ((coordinatorTrace cfg distributed fileExists texts canonResult).filter
        Event.isExistsCheck).length = 1 ∧
    ∃ pre post,
      coordinatorTrace cfg distributed fileExists texts canonResult =
        pre ++ Event.existsCheck fileExists :: post ∧
      pre.filter Event.isExistsCheck = [] ∧
      pre.filter Event.isAppendChunk = [] ∧
      post.filter Event.isExistsCheck = [] := by
  obtain ⟨pre, post, hdec, hp1, hp2, hp3⟩ :=
    coordinatorTrace_decomp cfg distributed fileExists texts canonResult
  refine ⟨?_, ?_, pre, post, hdec, hp1, hp2, hp3⟩
  · rintro rfl
    cases distributed
    · have h : coordinatorTrace cfg false true texts canonResult =
          [Event.loadModel, Event.existsCheck true, Event.exitWith 1] := rfl
      rw [h]
      exact ⟨rfl, by decide, rfl, rfl⟩
    · have h : coordinatorTrace cfg true true texts canonResult =
          [Event.loadModel, Event.broadcastSend, Event.existsCheck true,
            Event.exitWith 1] := rfl
      rw [h]
      exact ⟨rfl, by decide, rfl, rfl⟩
  · rw [hdec, List.filter_append, hp1, List.filter_cons]
    simp [Event.isExistsCheck, hp3]

/-- Witness for C4: a pre-existing path with concrete configuration: the
file content `"keep"` is unchanged, exit code 1 is reached, and the
existence check happened exactly once. -/
theorem C4_exists_guard_witness :
    finalFile (coordinatorTrace demoSmilesCfg false true demoTexts demoCanon)
        "keep" = "keep" ∧
    Event.exitWith 1 ∈
      coordinatorTrace demoSmilesCfg false true demoTexts demoCanon ∧
    ((coordinatorTrace demoSmilesCfg false true demoTexts demoCanon).filter
        Event.isExistsCheck).length = 1 :=
  let h := C4_exists_guard demoSmilesCfg false true demoTexts demoCanon "keep"
  ⟨(h.1 rfl).1, (h.1 rfl).2.1, h.2.1⟩

/-- Claim C6: in pass-through mode a round's persisted chunk is exactly the
raw service texts, verbatim, in slot order, newline-joined; splitting the
chunk back on newlines recovers the raw texts unchanged, so post-processing
is the identity on each item. -/
theorem C6_passthrough_identity (batch : List String) (i : Nat)
    (hne : batch ≠ []) (hnl : ∀ s ∈ batch, '\n' ∉ s.data) :
    smilesRoundEvents batch i =
      [Event.generateCall i, Event.appendChunk i (writeChunk batch)] ∧
    writeChunk batch = String.intercalate "\n" batch ++ "\n" ∧
    ((writeChunk batch).data.splitOn '\n').dropLast = batch.map String.data := by
  refine ⟨rfl, rfl, ?_⟩
  cases batch with
  | nil => exact absurd rfl hne
  | cons a as =>
      rw [writeChunk_data a as, splitOn_nl_flatMap (a :: as) hnl]
      exact List.dropLast_concat

/-- Witness for C6 at a concrete two-item round. -/
theorem C6_passthrough_identity_witness :
    smilesRoundEvents ["A", "B"] 0 =
      [Event.generateCall 0, Event.appendChunk 0 (writeChunk ["A", "B"])] ∧
    writeChunk ["A", "B"] = String.intercalate "\n" ["A", "B"] ++ "\n" ∧
    ((writeChunk ["A", "B"]).data.splitOn '\n').dropLast =
      ["A", "B"].map String.data :=
  C6_passthrough_identity ["A", "B"] 0 (by decide) (by decide)

/-- Claim C2 (what the code actually does): one failing item in a SELFIES
round does get its per-item sentinel `None` from `make_caninical_smiles`,
but `"\n".join` then raises `TypeError` on the sentinel and the round-level
`except: pass` drops the whole round: the round's trace has no write at
all, instead of a `batch_size`-entry write with one sentinel. -/
theorem C2_round_dropped_on_single_failure :
    parmapMap Unit demoDecoder demoMolFromSmiles demoMolToSmiles
        ["CC", "garbage"] = Except.ok [some "CC", none] ∧
    joinCanon [some "CC", none] = Except.error "TypeError" ∧
    selfiesRoundEvents
        (parmapMap Unit demoDecoder demoMolFromSmiles demoMolToSmiles
          ["CC", "garbage"]) 0 = [Event.generateCall 0] ∧
    selfiesRoundEvents (parmapMap Unit demoDecoder demoMolFromSmiles
        demoMolToSmiles ["CC", "CC"]) 0 =
      [Event.generateCall 0, Event.appendChunk 0 (writeChunk ["CC", "CC"])] := by
  refine ⟨rfl, rfl, rfl, rfl⟩

/-- Claim C3 (what the code actually does): in a distributed two-round run
the coordinator emits exactly one broadcast — the pre-loop
`broadcast_object(None)`, before the existence check — and two generate
calls; no broadcast precedes an individual round, and a worker that
observed no in-loop broadcast performs no generate call at all. -/
theorem C3_no_per_round_broadcast :
    ((coordinatorTrace c3Cfg true false c3Texts demoCanon).filter
        Event.isBroadcastSend).length = 1 ∧
    ((coordinatorTrace c3Cfg true false c3Texts demoCanon).filter
        Event.isGenerateCall).length = 2 ∧
    (coordinatorTrace c3Cfg true false c3Texts demoCanon).take 3 =
      [Event.loadModel, Event.broadcastSend, Event.existsCheck false] ∧
    (workerTrace 0).filter Event.isGenerateCall = [] := by
  refine ⟨rfl, rfl, rfl, rfl⟩

/-- Claim C5 counterexample: round 0's validation stage fails wholesale;
the round is skipped and the run continues (round 1 is generated and
written), but nothing observable records the drop: no skip-log event
exists, and apart from the missing write the trace is identical to that of
a fully clean run. -/
theorem C5_counterexample :
    ((coordinatorTrace c5Cfg false false c3Texts c5Canon).filter
        Event.isAppendChunk) =
      [Event.appendChunk 1 (writeChunk ["CC"])] ∧
    ((coordinatorTrace c5Cfg false false c3Texts c5Canon).filter
        Event.isGenerateCall).length = 2 ∧
    ((coordinatorTrace c5Cfg false false c3Texts c5Canon).filter
        Event.isSkipLog) = [] ∧
    (coordinatorTrace c5Cfg false false c3Texts c5Canon).filter
        (fun e => ! e.isAppendChunk) =
      (coordinatorTrace c5Cfg false false c3Texts c5CanonOk).filter
        (fun e => ! e.isAppendChunk) := by
  refine ⟨rfl, rfl, rfl, rfl⟩

/-- Claim C5 amended: when round `i`'s validation stage fails as a whole,
that round's write is skipped and the run continues through every other
round, but the drop is silent — the trace contains no log or counter event
recording it. -/
theorem C5_skip_silent (cfg : MetaseqConfig) (distributed : Bool)
    (texts : Nat → List String)
    (canonResult : Nat → Except String (List (Option String))) (i : Nat)
    (hmode : cfg.generation.mol_repr = MolRepr.selfies)
    (e0 : String) (herr : canonResult i = Except.error e0) :
    (∀ c, Event.appendChunk i c ∉
      coordinatorTrace cfg distributed false texts canonResult) ∧
    (∀ j, j < numRounds cfg.generation.generation_len cfg.dataset.batch_size →
      Event.generateCall j ∈
        coordinatorTrace cfg distributed false texts canonResult) ∧
    (coordinatorTrace cfg distributed false texts canonResult).filter
        Event.isSkipLog = [] := by
  refine ⟨?_, ?_, filterSkipLog_coordinatorTrace cfg distributed false texts
    canonResult⟩
  · intro c hc
    rcases mem_coordinatorTrace cfg distributed false texts canonResult _ hc
      with h | h | h | h | h | h | h | ⟨j, hj⟩
    · exact Event.noConfusion h
    · exact Event.noConfusion h
    · exact Event.noConfusion h
    · exact Event.noConfusion h
    · exact Event.noConfusion h
    · exact Event.noConfusion h
    · exact Event.noConfusion h
    · rcases mem_roundEvents cfg.generation.mol_repr texts canonResult j _ hj
        with h | ⟨c2, h⟩
      · exact Event.noConfusion h
      · have hji : j = i := by
          have := (Event.appendChunk.injEq i c j c2).mp h
          exact this.1.symm
        subst hji
        rw [hmode] at hj
        simp only [roundEvents, selfiesRoundEvents, herr] at hj
        simp at hj
  · intro j hj
    exact mem_coordinatorTrace_of_mem_rounds cfg distributed texts canonResult
      _ j hj (generateCall_mem_roundEvents cfg.generation.mol_repr texts
        canonResult j)

/-- Witness for C5 amended, at the concrete failing run of the
counterexample. -/
theorem C5_skip_silent_witness :
    (∀ c, Event.appendChunk 0 c ∉
      coordinatorTrace c5Cfg false false c3Texts c5Canon) ∧
    (∀ j, j < numRounds 2 1 →
      Event.generateCall j ∈
        coordinatorTrace c5Cfg false false c3Texts c5Canon) ∧
    (coordinatorTrace c5Cfg false false c3Texts c5Canon).filter
        Event.isSkipLog = [] :=
  C5_skip_silent c5Cfg false c3Texts c5Canon 0 rfl "PoolError" rfl

/-- Claim C7 counterexample: with a pre-existing output path the run does
abort, but the very first event is the model load; the path-existence check
comes only after it, so model resources are loaded before the check. -/
theorem C7_counterexample :
    coordinatorTrace demoSmilesCfg false true demoTexts demoCanon =
      [Event.loadModel, Event.existsCheck true, Event.exitWith 1] ∧
    ¬ ((coordinatorTrace demoSmilesCfg false true demoTexts demoCanon).findIdx
          Event.isExistsCheck <
        (coordinatorTrace demoSmilesCfg false true demoTexts demoCanon).findIdx
          Event.isLoadModel) := by
  exact ⟨rfl, by decide⟩

/-- Claim C7 amended: a pre-existing output path aborts the run (exit code
1) before the output file is opened and before any generation round, but
only after the Generation Service handle is constructed and the model
loaded: the existence check strictly follows the model load. -/
theorem C7_abort_after_model_load (cfg : MetaseqConfig) (distributed : Bool)
    (texts : Nat → List String)
    (canonResult : Nat → Except String (List (Option String))) :
    Event.exitWith 1 ∈
      coordinatorTrace cfg distributed true texts canonResult ∧
    Event.openOut ∉ coordinatorTrace cfg distributed true texts canonResult ∧
    (coordinatorTrace cfg distributed true texts canonResult).filter
        Event.isGenerateCall = [] ∧
    (coordinatorTrace cfg distributed true texts canonResult).findIdx
        Event.isLoadModel <
      (coordinatorTrace cfg distributed true texts canonResult).findIdx
        Event.isExistsCheck := by
  cases distributed
  · have h : coordinatorTrace cfg false true texts canonResult =
        [Event.loadModel, Event.existsCheck true, Event.exitWith 1] := rfl
    rw [h]
    exact ⟨by decide, by decide, rfl, by decide⟩
  · have h : coordinatorTrace cfg true true texts canonResult =
        [Event.loadModel, Event.broadcastSend, Event.existsCheck true,
          Event.exitWith 1] := rfl
    rw [h]
    exact ⟨by decide, by decide, rfl, by decide⟩

/-- Witness for C10: two slots, extra candidates in slot 0; only the first
candidate of each slot survives. -/
theorem C10_first_candidate_only_witness :
    extractFirstTexts
        (List.zipWith List.cons [Candidate.mk "A", Candidate.mk "B"]
          [[Candidate.mk "A2", Candidate.mk "A3"], [Candidate.mk "B2"]]) =
      some ["A", "B"] := by
  exact (C10_first_candidate_only [Candidate.mk "A", Candidate.mk "B"]
    [[Candidate.mk "A2", Candidate.mk "A3"], [Candidate.mk "B2"]] (by decide)).1

end InteractiveCli
